import Mathlib

/-!
Verification of the session controller of `cosmic-launcher`
(`src/components/app.rs`), shallowly embedded in Lean 4.

The embedding models:
* the `pop_launcher` value types `SearchResult`, `ContextOption`, the request
  protocol (`launcher::Request`) and the response protocol
  (`pop_launcher::Response`);
* the controller state `CosmicLauncher` (UI plumbing fields such as `core`
  are omitted: they are never read or written by the transitions);
* the message handler `CosmicLauncher::update`, the composite
  `CosmicLauncher::hide` and `CosmicLauncher::dbus_activation`, as functions
  from a state and a message to a new state, a list of backend requests sent
  during the step (tagged with the handle they are sent on), and a list of
  iced commands returned by the step;
* the keyboard part of `CosmicLauncher::subscription` as a function from a
  key code and the control-modifier flag to an optional message;
* surface existence, by replaying the surface commands
  (`get_layer_surface` / `destroy_layer_surface` / `get_popup` /
  `destroy_popup`) of each step against a two-flag world state.

Machine integers of the source (`u32`, `usize`) are modelled as `Nat`:
no arithmetic is performed on them, they are only stored and compared.
The `f32` cursor coordinates are modelled as `Int`: the controller never
computes with them except rounding them into the popup anchor rectangle,
and no claim depends on the numeric value.
-/

/-- The icon reference type of `pop_launcher` (`IconSource`). -/
inductive IconSource
  | Name (s : String)
  | Mime (s : String)
deriving DecidableEq

/-- The `pop_launcher::SearchResult` record, with the fields the controller
reads. `window` is `Option<(Generation, WindowId)>` in the source. -/
structure SearchResult where
  id : Nat
  name : String
  description : String
  icon : Option IconSource
  category_icon : Option IconSource
  window : Option (Nat × Nat)
deriving DecidableEq

/-- The `pop_launcher::ContextOption` record. -/
structure ContextOption where
  id : Nat
  name : String
deriving DecidableEq

/-- The request protocol `launcher::Request` (controller → backend). -/
inductive Request
  | Close
  | Search (query : String)
  | Activate (id : Nat)
  | Context (id : Nat)
  | ActivateContext (id : Nat) (option_id : Nat)
deriving DecidableEq

/-- The response protocol `pop_launcher::Response` (backend → controller).
The `gpu_preference` field of `DesktopEntry` is ignored by the controller
(`gpu_preference: _`) and is omitted. -/
inductive Response
  | Close
  | Context (id : Nat) (options : List ContextOption)
  | DesktopEntry (path : String)
  | Update (list : List SearchResult)
  | Fill (s : String)
deriving DecidableEq

/-- The event stream of the backend bridge (`launcher::Event`). A handle is
modelled by its identity (a `Nat`): requests record which handle they were
sent on. -/
inductive Event
  | Started (handle : Nat)
  | Response (r : Response)
deriving DecidableEq

/-- Layer-surface events delivered to the controller (`LayerEvent`). -/
inductive LayerEvent
  | Focused
  | Unfocused
  | Done
deriving DecidableEq

/-- The keyboard-navigation messages the controller matches on
(`keyboard_nav::Message`); `NavOther` stands for the variants absorbed by
the wild-card arm. -/
inductive NavMessage
  | FocusNext
  | FocusPrevious
  | Unfocus
  | NavOther
deriving DecidableEq

/-- The controller's message type (`Message` in `app.rs`). -/
inductive Message
  | InputChanged (value : String)
  | Activate (i : Nat)
  | Context (i : Nat)
  | MenuButton (i : Nat) (context : Nat)
  | CloseContextMenu
  | CursorMoved (pos : Int × Int)
  | Hide
  | LauncherEvent (e : Event)
  | Layer (e : LayerEvent)
  | KeyboardNav (e : NavMessage)
  | ActivationToken (token : Option String) (exec : String)
deriving DecidableEq

/-- The mutable controller state (`struct CosmicLauncher`), without the UI
plumbing field `core`, which no transition reads or writes. -/
structure State where
  input_value : String
  active_surface : Bool
  launcher_items : List SearchResult
  tx : Option Nat
  wait_for_result : Bool
  menu : Option (Nat × List ContextOption)
  cursor_position : Option (Int × Int)
deriving DecidableEq

/-- The initial state built by `CosmicLauncher::init`. -/
def initState : State :=
  { input_value := ""
    active_surface := false
    launcher_items := []
    tx := none
    wait_for_result := false
    menu := none
    cursor_position := none }

/-- The iced commands the controller can return, restricted to their
observable content. `GetPopup` records the anchor rectangle
(x, y, width, height) of the popup positioner; `Spawn` records the
process-spawn side effect of `ActivationToken` together with the injected
environment variables. -/
inductive Cmd
  | DestroyPopup
  | DestroyLayerSurface
  | GetPopup (anchorRect : Int × Int × Int × Int)
  | GetLayerSurface
  | FocusInput
  | RequestToken (exec : String)
  | Spawn (exec : String) (envs : List (String × String))
  | FocusNext
  | FocusPrevious
  | Unfocus
deriving DecidableEq

/-- The outcome of one controller step: the new state, the backend requests
sent during the step (in order, tagged with the handle used), and the
commands returned. -/
abbrev StepResult := State × List (Nat × Request) × List Cmd

/-- The sort key of `Response::Update` handling:
`i32::from(a.window.is_none())`. -/
def resultKey (r : SearchResult) : Int :=
  if r.window.isNone then 1 else 0

/-- The comparator of the `sort_by` call: `a.cmp(&b)` on the keys, read as
the non-strict order it induces. -/
def resultLE (a b : SearchResult) : Prop :=
  resultKey a ≤ resultKey b

instance : DecidableRel resultLE := fun _ _ => Int.decLe _ _

/-- The result pipeline of the `Response::Update` arm:
`list.sort_by(...)` compares `i32::from(window.is_none())` keys and
`list.truncate(10)` keeps the first ten entries. Rust's `Vec::sort_by` is a
stable sort; for a comparator induced by a total key order every stable
sort returns the same list, so it is embedded as the stable
`List.insertionSort` on the same key. -/
def updatePipeline (list : List SearchResult) : List SearchResult :=
  (list.insertionSort resultLE).take 10

/-- The composite `CosmicLauncher::hide`: clear the input, send `Close`
then `Search("")` when a handle is present, and when the surface is active
destroy the layer surface (plus the popup when a menu was stored) and clear
the flag and the menu. -/
def hide (s : State) : StepResult :=
  let s1 : State := { s with input_value := "" }
  let reqs : List (Nat × Request) :=
    match s1.tx with
    | some h => [(h, Request.Close), (h, Request.Search "")]
    | none => []
  if s1.active_surface then
    ({ s1 with active_surface := false, menu := none }, reqs,
      Cmd.DestroyLayerSurface ::
        (if s1.menu.isSome then [Cmd.DestroyPopup] else []))
  else
    (s1, reqs, [])

/-- The message handler `CosmicLauncher::update`. `resolveExec` stands for
the external desktop-entry collaborator
(`cosmic::desktop::load_desktop_file` followed by the `exec` field): it
returns the executable line when the path resolves to an entry with one. -/
def update (resolveExec : String → Option String) (s : State) :
    Message → StepResult
  | Message.InputChanged value =>
    let s1 : State := { s with input_value := value }
    match s1.tx with
    | some h => (s1, [(h, Request.Search value)], [])
    | none => (s1, [], [])
  | Message.Activate i =>
    match s.tx, s.launcher_items.get? i with
    | some h, some item => (s, [(h, Request.Activate item.id)], [])
    | some _, none => (s, [], [])
    | none, _ => (s, [], [])
  | Message.Context i =>
    if s.menu.isSome then
      ({ s with menu := none }, [], [Cmd.DestroyPopup])
    else
      match s.tx, s.launcher_items.get? i with
      | some h, some item => (s, [(h, Request.Context item.id)], [])
      | some _, none => (s, [], [])
      | none, _ => (s, [], [])
  | Message.CursorMoved pos =>
    ({ s with cursor_position := some pos }, [], [])
  | Message.MenuButton i context =>
    if s.menu.isSome then
      ({ s with menu := none }, [], [Cmd.DestroyPopup])
    else
      match s.tx with
      | some h => (s, [(h, Request.ActivateContext i context)], [])
      | none => (s, [], [])
  | Message.LauncherEvent (Event.Started h) =>
    ({ s with tx := some h }, [(h, Request.Search "")], [])
  | Message.LauncherEvent (Event.Response r) =>
    match r with
    | Response.Close => hide s
    | Response.Context id options =>
      if options.isEmpty then (s, [], [])
      else
        let s1 : State := { s with menu := some (id, options) }
        match s1.cursor_position with
        | none => (s1, [], [])
        | some pos => (s1, [], [Cmd.GetPopup (pos.1, pos.2, 1, 1)])
    | Response.DesktopEntry path =>
      match resolveExec path with
      | none => (s, [], [])
      | some exec => (s, [], [Cmd.RequestToken exec])
    | Response.Update list =>
      let s1 : State := { s with launcher_items := updatePipeline list }
      if s1.wait_for_result then
        ({ s1 with wait_for_result := false }, [], [Cmd.GetLayerSurface])
      else
        (s1, [], [])
    | Response.Fill str =>
      ({ s with input_value := str }, [], [Cmd.FocusInput])
  | Message.Layer e =>
    match e with
    | LayerEvent.Focused => (s, [], [Cmd.FocusInput])
    | LayerEvent.Unfocused => hide s
    | LayerEvent.Done => (s, [], [])
  | Message.CloseContextMenu =>
    if s.menu.isSome then
      ({ s with menu := none }, [], [Cmd.DestroyPopup])
    else
      (s, [], [])
  | Message.Hide =>
    if s.menu.isSome then
      ({ s with menu := none }, [], [Cmd.DestroyPopup])
    else
      hide s
  | Message.KeyboardNav e =>
    match e with
    | NavMessage.FocusNext => (s, [], [Cmd.FocusNext])
    | NavMessage.FocusPrevious => (s, [], [Cmd.FocusPrevious])
    | NavMessage.Unfocus =>
      let s1 : State := { s with input_value := "" }
      match s1.tx with
      | some h => (s1, [(h, Request.Search "")], [Cmd.Unfocus])
      | none => (s1, [], [Cmd.Unfocus])
    | NavMessage.NavOther => (s, [], [])
  | Message.ActivationToken token exec =>
    let envs : List (String × String) :=
      match token with
      | some t => [("XDG_ACTIVATION_TOKEN", t), ("DESKTOP_STARTUP_ID", t)]
      | none => []
    let h := hide s
    (h.1, h.2.1, Cmd.Spawn exec envs :: h.2.2)

/-- The `CosmicLauncher::dbus_activation` handler for the `Activate`
detail: run `hide` when the surface is active, otherwise send
`Search("")` when a handle is present, clear the input and raise the
`active_surface` and `wait_for_result` flags. -/
def dbus_activation (s : State) : StepResult :=
  if s.active_surface then
    hide s
  else
    let reqs : List (Nat × Request) :=
      match s.tx with
      | some h => [(h, Request.Search "")]
      | none => []
    ({ s with
        input_value := ""
        active_surface := true
        wait_for_result := true }, reqs, [])

/-- The key codes matched by `CosmicLauncher::subscription`; `OtherKey`
stands for every key code absorbed by the wild-card arm. -/
inductive KeyCode
  | Key1 | Key2 | Key3 | Key4 | Key5 | Key6 | Key7 | Key8 | Key9 | Key0
  | Numpad1 | Numpad2 | Numpad3 | Numpad4 | Numpad5 | Numpad6 | Numpad7
  | Numpad8 | Numpad9 | Numpad0
  | Up | Down | P | K | N | J | Escape
  | OtherKey
deriving DecidableEq

/-- The keyboard dispatch of `CosmicLauncher::subscription` on a
`KeyReleased` event: the guarded match arms of the source in order, with
first-match semantics. Note that the source arm for `Activate(7)` reads
`KeyCode::Key8 | KeyCode::Numpad7` (and `Numpad7` is already taken by the
preceding arm). -/
def keybind (key : KeyCode) (ctrl : Bool) : Option Message :=
  if (key = KeyCode.Key1 ∨ key = KeyCode.Numpad1) ∧ ctrl then
    some (Message.Activate 0)
  else if (key = KeyCode.Key2 ∨ key = KeyCode.Numpad2) ∧ ctrl then
    some (Message.Activate 1)
  else if (key = KeyCode.Key3 ∨ key = KeyCode.Numpad3) ∧ ctrl then
    some (Message.Activate 2)
  else if (key = KeyCode.Key4 ∨ key = KeyCode.Numpad4) ∧ ctrl then
    some (Message.Activate 3)
  else if (key = KeyCode.Key5 ∨ key = KeyCode.Numpad5) ∧ ctrl then
    some (Message.Activate 4)
  else if (key = KeyCode.Key6 ∨ key = KeyCode.Numpad6) ∧ ctrl then
    some (Message.Activate 5)
  else if (key = KeyCode.Key7 ∨ key = KeyCode.Numpad7) ∧ ctrl then
    some (Message.Activate 6)
  else if (key = KeyCode.Key8 ∨ key = KeyCode.Numpad7) ∧ ctrl then
    some (Message.Activate 7)
  else if (key = KeyCode.Key9 ∨ key = KeyCode.Numpad9) ∧ ctrl then
    some (Message.Activate 8)
  else if (key = KeyCode.Key0 ∨ key = KeyCode.Numpad0) ∧ ctrl then
    some (Message.Activate 9)
  else if key = KeyCode.Up then
    some (Message.KeyboardNav NavMessage.FocusPrevious)
  else if key = KeyCode.Down then
    some (Message.KeyboardNav NavMessage.FocusNext)
  else if (key = KeyCode.P ∨ key = KeyCode.K) ∧ ctrl then
    some (Message.KeyboardNav NavMessage.FocusPrevious)
  else if (key = KeyCode.N ∨ key = KeyCode.J) ∧ ctrl then
    some (Message.KeyboardNav NavMessage.FocusNext)
  else if key = KeyCode.Escape then
    some Message.Hide
  else
    none

/-- One run of the single-threaded event loop over a list of messages:
each message is fully processed before the next, and the backend requests
sent by the steps are concatenated in order. -/
def runMsgs (resolveExec : String → Option String) (s : State) :
    List Message → State × List (Nat × Request)
  | [] => (s, [])
  | m :: ms =>
    let st := update resolveExec s m
    let rest := runMsgs resolveExec st.1 ms
    (rest.1, st.2.1 ++ rest.2)

/-- Surface existence: whether the Main layer surface and the Menu popup
currently exist in the compositor world. -/
structure Surfaces where
  main : Bool
  menuOpen : Bool
deriving DecidableEq

/-- Effect of one returned command on surface existence. -/
def applyCmd (u : Surfaces) : Cmd → Surfaces
  | Cmd.GetLayerSurface => { u with main := true }
  | Cmd.DestroyLayerSurface => { u with main := false }
  | Cmd.GetPopup _ => { u with menuOpen := true }
  | Cmd.DestroyPopup => { u with menuOpen := false }
  | _ => u

/-- Effect of a step's command list on surface existence. -/
def applyCmds (u : Surfaces) (cs : List Cmd) : Surfaces :=
  cs.foldl applyCmd u

/-- Whether a message carries a backend response. -/
def isResponse : Message → Bool
  | Message.LauncherEvent (Event.Response _) => true
  | _ => false

/-- Whether a message carries the bridge's `Started` event. -/
def isStarted : Message → Bool
  | Message.LauncherEvent (Event.Started _) => true
  | _ => false

/-- Reachability of a controller state together with the surface world its
commands produced, along traces of messages and dbus activations. The
boolean records whether a `Started` event has been delivered; per the
backend-bridge contract the first event of the stream is `Started`, so a
`Response` message is admitted only after it (and the handle, once stored
by `Started`, is never cleared, as `reach_inv` below makes precise). -/
inductive Reach (resolveExec : String → Option String) :
    Bool → State → Surfaces → Prop
  | init : Reach resolveExec false initState ⟨false, false⟩
  | msg {b : Bool} {s : State} {u : Surfaces} (m : Message)
      (hb : isResponse m = true → b = true)
      (h : Reach resolveExec b s u) :
      Reach resolveExec (b || isStarted m) (update resolveExec s m).1
        (applyCmds u (update resolveExec s m).2.2)
  | dbus {b : Bool} {s : State} {u : Surfaces}
      (h : Reach resolveExec b s u) :
      Reach resolveExec b (dbus_activation s).1
        (applyCmds u (dbus_activation s).2.2)

/-- A desktop-entry resolver for concrete runs: no path resolves. -/
def re0 : String → Option String := fun _ => none

/-- A sample search result without a window association. -/
def plainItem (n : Nat) : SearchResult :=
  { id := n, name := "app", description := "an app", icon := none,
    category_icon := none, window := none }

/-- A sample search result associated with an existing window. -/
def windowedItem (n : Nat) : SearchResult :=
  { id := n, name := "app", description := "an app", icon := none,
    category_icon := none, window := some (0, n) }

/-- A state with a backend handle and an open context menu. -/
def menuOpenState : State :=
  { initState with tx := some 3, menu := some (9, [⟨1, "Open"⟩]) }

/-- A state with a backend handle and a three-item result list. -/
def threeItemState : State :=
  { initState with
      tx := some 3
      launcher_items := [plainItem 1, plainItem 2, plainItem 3] }

/-- The state reached by one dbus activation from the initial state:
activated, awaiting the first result, no surface created yet. -/
def awaitingState : State :=
  { initState with active_surface := true, wait_for_result := true }

/-- The state reached from the initial state by `Started 7`, a cursor
move to (3, 4), and a `Context` response with one option. -/
def menuShownState : State :=
  { initState with
      tx := some 7
      menu := some (9, [⟨1, "Open"⟩])
      cursor_position := some (3, 4) }

/-- The state reached from the initial state by `Started 7` followed by an
`Update` response carrying one plain item. -/
def oneItemState : State :=
  { initState with tx := some 7, launcher_items := [plainItem 1] }

/-- The reachability invariant: once the bridge has started, the handle is
present; the Menu popup exists only when a menu is stored; and a non-empty
stored result list implies the handle is present. -/
def CtrlInv (b : Bool) (s : State) (u : Surfaces) : Prop :=
  (b = true → s.tx.isSome = true) ∧
  (u.menuOpen = true → s.menu.isSome = true) ∧
  (s.launcher_items ≠ [] → s.tx.isSome = true)

/-! ### The result pipeline is a stable partition -/

theorem resultKey_nonneg (r : SearchResult) : 0 ≤ resultKey r := by
  unfold resultKey
  split <;> decide

theorem resultKey_of_windowed {r : SearchResult}
    (h : r.window.isSome = true) : resultKey r = 0 := by
  unfold resultKey
  cases hw : r.window with
  | none => rw [hw] at h; simp at h
  | some v => rfl

theorem resultKey_of_not_windowed {r : SearchResult}
    (h : ¬ r.window.isSome = true) : resultKey r = 1 := by
  unfold resultKey
  cases hw : r.window with
  | none => rfl
  | some v => rw [hw] at h; simp at h

theorem orderedInsert_key_zero {x : SearchResult} (hx : resultKey x = 0)
    (L : List SearchResult) :
    L.orderedInsert resultLE x = x :: L := by
  cases L with
  | nil => rfl
  | cons c l =>
    simp only [List.orderedInsert]
    rw [if_pos (show resultLE x c by
      unfold resultLE; rw [hx]; exact resultKey_nonneg c)]

theorem orderedInsert_append_key_zero {x : SearchResult}
    (hx : resultKey x = 1) {A : List SearchResult}
    (hA : ∀ a ∈ A, resultKey a = 0) (B : List SearchResult) :
    (A ++ B).orderedInsert resultLE x = A ++ B.orderedInsert resultLE x := by
  induction A with
  | nil => rfl
  | cons a A ih =>
    have ha : resultKey a = 0 := hA a (List.mem_cons_self a A)
    simp only [List.cons_append, List.orderedInsert, List.append_eq]
    rw [if_neg (show ¬ resultLE x a by
      unfold resultLE; rw [hx, ha]; decide)]
    rw [ih (fun a' ha' => hA a' (List.mem_cons_of_mem _ ha'))]

theorem orderedInsert_all_key_one {x : SearchResult} (hx : resultKey x = 1)
    {B : List SearchResult} (hB : ∀ b ∈ B, resultKey b = 1) :
    B.orderedInsert resultLE x = x :: B := by
  cases B with
  | nil => rfl
  | cons c l =>
    simp only [List.orderedInsert]
    rw [if_pos (show resultLE x c by
      unfold resultLE; rw [hx, hB c (List.mem_cons_self c l)])]

theorem insertionSort_partition (l : List SearchResult) :
    l.insertionSort resultLE =
      l.filter (fun r => r.window.isSome) ++
        l.filter (fun r => !r.window.isSome) := by
  induction l with
  | nil => rfl
  | cons x l ih =>
    simp only [List.insertionSort]
    rw [ih]
    by_cases hx : x.window.isSome = true
    · obtain ⟨v, hv⟩ := Option.isSome_iff_exists.mp hx
      rw [orderedInsert_key_zero (resultKey_of_windowed hx)]
      simp [List.filter_cons, hv]
    · have hnone : x.window = none := Option.not_isSome_iff_eq_none.mp hx
      have hx1 := resultKey_of_not_windowed hx
      have hA : ∀ a ∈ l.filter (fun r => r.window.isSome),
          resultKey a = 0 := by
        intro a ha
        exact resultKey_of_windowed (List.mem_filter.mp ha).2
      have hB : ∀ a ∈ l.filter (fun r => !r.window.isSome),
          resultKey a = 1 := by
        intro a ha
        have hmem := (List.mem_filter.mp ha).2
        simp only [Bool.not_eq_true'] at hmem
        exact resultKey_of_not_windowed (by simp [hmem])
      rw [orderedInsert_append_key_zero hx1 hA, orderedInsert_all_key_one hx1 hB]
      simp [List.filter_cons, hnone]

theorem updatePipeline_eq (l : List SearchResult) :
    updatePipeline l =
      (l.filter (fun r => r.window.isSome) ++
        l.filter (fun r => !r.window.isSome)).take 10 := by
  rw [updatePipeline, insertionSort_partition]

/-! ### The reachability invariant -/

theorem hide_eq (s : State) :
    hide s =
      if s.active_surface then
        ({ s with input_value := "", active_surface := false, menu := none },
          (match s.tx with
            | some h => [(h, Request.Close), (h, Request.Search "")]
            | none => []),
          Cmd.DestroyLayerSurface ::
            (if s.menu.isSome then [Cmd.DestroyPopup] else []))
      else
        ({ s with input_value := "" },
          (match s.tx with
            | some h => [(h, Request.Close), (h, Request.Search "")]
            | none => []),
          []) := rfl

theorem hide_inv {b : Bool} {s : State} {u : Surfaces} (hI : CtrlInv b s u) :
    CtrlInv b (hide s).1 (applyCmds u (hide s).2.2) := by
  obtain ⟨h1, h2, h3⟩ := hI
  rw [hide_eq]
  cases ha : s.active_surface with
  | false =>
    simp only [Bool.false_eq_true, if_false, applyCmds, List.foldl]
    exact ⟨h1, h2, h3⟩
  | true =>
    cases hm : s.menu with
    | none =>
      simp only [if_true, Option.isSome_none, Bool.false_eq_true, if_false,
        applyCmds, List.foldl, applyCmd]
      refine ⟨h1, ?_, h3⟩
      intro hmo
      simp only [applyCmd] at hmo
      rw [hm] at h2
      exact absurd (h2 hmo) (by simp)
    | some p =>
      simp only [if_true, Option.isSome_some, applyCmds, List.foldl, applyCmd]
      refine ⟨h1, ?_, h3⟩
      intro hmo
      simp at hmo

theorem step_inv (re : String → Option String) {b : Bool} {s : State}
    {u : Surfaces} (m : Message) (hb : isResponse m = true → b = true)
    (hI : CtrlInv b s u) :
    CtrlInv (b || isStarted m) (update re s m).1
      (applyCmds u (update re s m).2.2) := by
  obtain ⟨h1, h2, h3⟩ := hI
  cases m with
  | InputChanged v =>
    simp only [update, isStarted, Bool.or_false]
    split <;> exact ⟨h1, h2, h3⟩
  | Activate i =>
    simp only [update, isStarted, Bool.or_false]
    split <;> exact ⟨h1, h2, h3⟩
  | Context i =>
    simp only [update, isStarted, Bool.or_false]
    split
    · refine ⟨h1, ?_, h3⟩
      intro hmo
      simp [applyCmds, applyCmd] at hmo
    · split <;> exact ⟨h1, h2, h3⟩
  | MenuButton i context =>
    simp only [update, isStarted, Bool.or_false]
    split
    · refine ⟨h1, ?_, h3⟩
      intro hmo
      simp [applyCmds, applyCmd] at hmo
    · split <;> exact ⟨h1, h2, h3⟩
  | CloseContextMenu =>
    simp only [update, isStarted, Bool.or_false]
    split
    · refine ⟨h1, ?_, h3⟩
      intro hmo
      simp [applyCmds, applyCmd] at hmo
    · exact ⟨h1, h2, h3⟩
  | Hide =>
    simp only [update, isStarted, Bool.or_false]
    split
    · refine ⟨h1, ?_, h3⟩
      intro hmo
      simp [applyCmds, applyCmd] at hmo
    · exact hide_inv ⟨h1, h2, h3⟩
  | CursorMoved pos =>
    simp only [update, isStarted, Bool.or_false]
    exact ⟨h1, h2, h3⟩
  | LauncherEvent e =>
    cases e with
    | Started h =>
      exact ⟨fun _ => rfl, h2, fun _ => rfl⟩
    | Response r =>
      have hbt : b = true := hb rfl
      cases r with
      | Close =>
        simp only [update, isStarted, Bool.or_false]
        exact hide_inv ⟨h1, h2, h3⟩
      | Context id options =>
        simp only [update, isStarted, Bool.or_false]
        split
        · exact ⟨h1, h2, h3⟩
        · split
          · exact ⟨h1, fun _ => rfl, h3⟩
          · exact ⟨h1, fun _ => rfl, h3⟩
      | DesktopEntry path =>
        simp only [update, isStarted, Bool.or_false]
        split <;> exact ⟨h1, h2, h3⟩
      | Update list =>
        simp only [update, isStarted, Bool.or_false]
        split
        · exact ⟨fun _ => h1 hbt, h2, fun _ => h1 hbt⟩
        · exact ⟨fun _ => h1 hbt, h2, fun _ => h1 hbt⟩
      | Fill str =>
        simp only [update, isStarted, Bool.or_false]
        exact ⟨h1, h2, h3⟩
  | Layer e =>
    cases e with
    | Focused =>
      simp only [update, isStarted, Bool.or_false]
      exact ⟨h1, h2, h3⟩
    | Unfocused =>
      simp only [update, isStarted, Bool.or_false]
      exact hide_inv ⟨h1, h2, h3⟩
    | Done =>
      simp only [update, isStarted, Bool.or_false]
      exact ⟨h1, h2, h3⟩
  | KeyboardNav e =>
    cases e with
    | FocusNext =>
      simp only [update, isStarted, Bool.or_false]
      exact ⟨h1, h2, h3⟩
    | FocusPrevious =>
      simp only [update, isStarted, Bool.or_false]
      exact ⟨h1, h2, h3⟩
    | Unfocus =>
      simp only [update, isStarted, Bool.or_false]
      split <;> exact ⟨h1, h2, h3⟩
    | NavOther =>
      simp only [update, isStarted, Bool.or_false]
      exact ⟨h1, h2, h3⟩
  | ActivationToken token exec =>
    simp only [update, isStarted, Bool.or_false]
    exact hide_inv ⟨h1, h2, h3⟩

theorem dbus_inv {b : Bool} {s : State} {u : Surfaces}
    (hI : CtrlInv b s u) :
    CtrlInv b (dbus_activation s).1 (applyCmds u (dbus_activation s).2.2) := by
  obtain ⟨h1, h2, h3⟩ := hI
  unfold dbus_activation
  split
  · exact hide_inv ⟨h1, h2, h3⟩
  · exact ⟨h1, h2, h3⟩

theorem reach_inv {re : String → Option String} {b : Bool} {s : State}
    {u : Surfaces} (h : Reach re b s u) : CtrlInv b s u := by
  induction h with
  | init => exact ⟨by simp, by simp, by simp [initState]⟩
  | msg m hb h ih => exact step_inv _ m hb ih
  | dbus h ih => exact dbus_inv ih

/-! ### The claims -/

/-- C1: the Result Pipeline applied to every `Update` response is pure: the
stored list equals the stable partition of the input — windowed items first,
each group keeping its original relative order — truncated to the first 10
entries, hence holds at most 10 entries. -/
theorem C1_result_pipeline (re : String → Option String) (s : State)
    (l : List SearchResult) :
    (update re s (Message.LauncherEvent (Event.Response
        (Response.Update l)))).1.launcher_items =
      (l.filter (fun r => r.window.isSome) ++
        l.filter (fun r => !r.window.isSome)).take 10 ∧
    (update re s (Message.LauncherEvent (Event.Response
        (Response.Update l)))).1.launcher_items.length ≤ 10 := by
  have hitems : (update re s (Message.LauncherEvent (Event.Response
      (Response.Update l)))).1.launcher_items = updatePipeline l := by
    simp only [update]
    split <;> rfl
  rw [hitems, updatePipeline_eq]
  exact ⟨rfl, List.length_take_le 10 _⟩

/-- C2 (failing input): with a backend handle present and a menu open,
`MenuButton(5, 7)` closes the menu and returns early without issuing any
backend request — in particular no `ActivateContext(5, 7)` — although the
claim (and the spec) require the request to be issued regardless. -/
theorem C2_menu_button_drops_request :
    update re0 menuOpenState (Message.MenuButton 5 7) =
      ({ menuOpenState with menu := none }, [], [Cmd.DestroyPopup]) ∧
    menuOpenState.tx = some 3 :=
  ⟨rfl, rfl⟩

/-- C3 (counterexample): a `Context` response with one option processed
while the pointer position is unknown requests no Menu surface, but does
not leave the state unchanged: the menu pair is stored. -/
theorem C3_counterexample :
    (update re0 initState (Message.LauncherEvent (Event.Response
        (Response.Context 1 [⟨1, "Open"⟩])))).2.2 = [] ∧
    (update re0 initState (Message.LauncherEvent (Event.Response
        (Response.Context 1 [⟨1, "Open"⟩])))).1 ≠ initState := by
  refine ⟨rfl, ?_⟩
  intro h
  have hmenu := congrArg State.menu h
  simp [update, initState] at hmenu

/-- C3 (amended): a `Context` response with a non-empty option list
processed while the pointer position is unknown creates no Menu surface
and issues no request, but stores the response's pair in the menu state;
the rest of the session state is unchanged. -/
theorem C3_context_response_unknown_pointer (re : String → Option String)
    (s : State) (id : Nat) (options : List ContextOption)
    (hne : options ≠ []) (hcur : s.cursor_position = none) :
    update re s (Message.LauncherEvent (Event.Response
        (Response.Context id options))) =
      ({ s with menu := some (id, options) }, [], []) := by
  have hemp : options.isEmpty = false := by
    cases options with
    | nil => exact absurd rfl hne
    | cons o os => rfl
  simp only [update, hemp, Bool.false_eq_true, if_false, hcur]

theorem C3_witness :
    update re0 initState (Message.LauncherEvent (Event.Response
        (Response.Context 1 [⟨1, "Open"⟩]))) =
      ({ initState with menu := some (1, [⟨1, "Open"⟩]) }, [], []) :=
  C3_context_response_unknown_pointer re0 initState 1 [⟨1, "Open"⟩]
    (by simp) rfl

/-- C4 (counterexample): the configuration reached by one dbus activation
from the initial state has the surface-active flag set while no Main
surface exists yet (it is created only on the first `Update` response), so
the claimed biconditionals fail on a reachable state. -/
theorem C4_counterexample :
    Reach re0 false awaitingState ⟨false, false⟩ ∧
    ¬ (((⟨false, false⟩ : Surfaces).main = true ↔
          awaitingState.active_surface = true) ∧
       ((⟨false, false⟩ : Surfaces).menuOpen = true ↔
          awaitingState.menu.isSome = true) ∧
       ((⟨false, false⟩ : Surfaces).menuOpen = true →
          (⟨false, false⟩ : Surfaces).main = true)) := by
  refine ⟨Reach.dbus Reach.init, ?_⟩
  intro hcl
  have hmain := hcl.1.mpr rfl
  simp at hmain

/-- C4 (amended): in every reachable configuration the Menu surface exists
only if the stored active context menu is not none. (The Main-surface
biconditional fails while awaiting the first result, and the converse Menu
direction fails when a `Context` response arrives with the pointer
position unknown: the menu is stored but no surface is created.) -/
theorem C4_menu_surface_needs_menu_state {re : String → Option String}
    {b : Bool} {s : State} {u : Surfaces} (h : Reach re b s u) :
    u.menuOpen = true → s.menu.isSome = true :=
  (reach_inv h).2.1

theorem C4_witness : menuShownState.menu.isSome = true := by
  have h0 : Reach re0 false initState ⟨false, false⟩ := Reach.init
  have h1 := Reach.msg (Message.LauncherEvent (Event.Started 7))
    (fun hr => hr) h0
  have h2 := Reach.msg (Message.CursorMoved (3, 4)) (fun _ => rfl) h1
  have h3 : Reach re0 true menuShownState ⟨false, true⟩ :=
    Reach.msg (Message.LauncherEvent (Event.Response
      (Response.Context 9 [⟨1, "Open"⟩]))) (fun _ => rfl) h2
  exact C4_menu_surface_needs_menu_state h3 rfl

/-- C5: for every reachable configuration and every `Context(i)` action:
when a menu is open it is closed (popup destroyed, menu state cleared)
regardless of the index and no request is issued; otherwise a valid index
issues exactly one `Context(result_id)` request (the handle is present by
the reachability invariant, and the pointer position is not consulted);
and after two consecutive `Context` actions with no intervening backend
response the Menu surface does not exist, so two menus are never open
simultaneously. -/
theorem C5_context_toggle {re : String → Option String} {b : Bool}
    {s : State} {u : Surfaces} (h : Reach re b s u) (i j : Nat) :
    (s.menu.isSome = true →
      update re s (Message.Context i) =
        ({ s with menu := none }, [], [Cmd.DestroyPopup])) ∧
    (s.menu = none → ∀ item, s.launcher_items.get? i = some item →
      ∃ hdl, s.tx = some hdl ∧
        update re s (Message.Context i) =
          (s, [(hdl, Request.Context item.id)], [])) ∧
    (applyCmds (applyCmds u (update re s (Message.Context i)).2.2)
        (update re (update re s (Message.Context i)).1
          (Message.Context j)).2.2).menuOpen = false := by
  obtain ⟨_, h2, h3⟩ := reach_inv h
  refine ⟨?_, ?_, ?_⟩
  · intro hm
    simp only [update, hm, if_true]
  · intro hm item hitem
    have hne : s.launcher_items ≠ [] := by
      intro he
      rw [he] at hitem
      simp at hitem
    obtain ⟨hdl, hhdl⟩ := Option.isSome_iff_exists.mp (h3 hne)
    refine ⟨hdl, hhdl, ?_⟩
    simp only [update, hm, Option.isSome_none, Bool.false_eq_true, if_false,
      hhdl, hitem]
  · by_cases hm : s.menu.isSome = true
    · simp only [update, hm, if_true, Option.isSome_none, Bool.false_eq_true,
        if_false]
      split <;> simp [applyCmds, applyCmd]
    · have hm' : s.menu.isSome = false := by
        cases hcase : s.menu.isSome with
        | false => rfl
        | true => exact absurd hcase hm
      have hu : u.menuOpen = false := by
        cases hcase : u.menuOpen with
        | false => rfl
        | true => rw [h2 hcase] at hm'; exact Bool.noConfusion hm'
      simp only [update, hm', Bool.false_eq_true, if_false]
      split
      all_goals
        simp only [update, hm', Bool.false_eq_true, if_false]
        split <;> simp [applyCmds, applyCmd, hu]

theorem C5_witness :
    (applyCmds (applyCmds ⟨false, false⟩
        (update re0 oneItemState (Message.Context 0)).2.2)
      (update re0 (update re0 oneItemState (Message.Context 0)).1
        (Message.Context 0)).2.2).menuOpen = false := by
  have h0 : Reach re0 false initState ⟨false, false⟩ := Reach.init
  have h1 := Reach.msg (Message.LauncherEvent (Event.Started 7))
    (fun hr => hr) h0
  have h2 : Reach re0 true oneItemState ⟨false, false⟩ :=
    Reach.msg (Message.LauncherEvent (Event.Response
      (Response.Update [plainItem 1]))) (fun _ => rfl) h1
  exact (C5_context_toggle h2 0 0).2.2

/-- C6 (failing input): with the control modifier held, `Numpad8` is
mapped to no message at all — the source arm reads
`KeyCode::Key8 | KeyCode::Numpad7` — although the claim requires every
keypad digit to map, with 8 mapping to `Activate(7)`; the neighbouring
keys behave as claimed. -/
theorem C6_numpad8_unmapped :
    keybind KeyCode.Numpad8 true = none ∧
    keybind KeyCode.Key8 true = some (Message.Activate 7) ∧
    keybind KeyCode.Numpad7 true = some (Message.Activate 6) ∧
    keybind KeyCode.Key1 true = some (Message.Activate 0) ∧
    keybind KeyCode.Key0 true = some (Message.Activate 9) ∧
    keybind KeyCode.Numpad0 true = some (Message.Activate 9) := by
  refine ⟨?_, ?_, ?_, ?_, ?_, ?_⟩ <;> decide

/-- C7: an `Activate(i)` action whose index is not a valid position in the
stored result list issues no backend request and leaves the whole session
state unchanged. -/
theorem C7_activate_out_of_range (re : String → Option String) (s : State)
    (i : Nat) (hi : s.launcher_items.length ≤ i) :
    update re s (Message.Activate i) = (s, [], []) := by
  have hget : s.launcher_items.get? i = none := List.get?_eq_none.mpr hi
  simp only [update, hget]
  split <;> simp_all

theorem C7_witness :
    threeItemState.launcher_items.length ≤ 15 ∧
    update re0 threeItemState (Message.Activate 15) =
      (threeItemState, [], []) :=
  ⟨by decide, C7_activate_out_of_range re0 threeItemState 15 (by decide)⟩

/-- C8: running the Hide composite while the surface is not active clears
the input text and issues no surface-destroy command for either surface;
if the input was already empty the state is left entirely unchanged. -/
theorem C8_hide_when_hidden (s : State) (h : s.active_surface = false) :
    (hide s).1 = { s with input_value := "" } ∧ (hide s).2.2 = [] ∧
    (s.input_value = "" → (hide s).1 = s) := by
  refine ⟨?_, ?_, ?_⟩
  · rw [hide_eq]
    simp [h]
  · rw [hide_eq]
    simp [h]
  · intro hin
    obtain ⟨iv, a2, li, tx, wf, me, cp⟩ := s
    simp only at hin h
    subst hin
    subst h
    rw [hide_eq]
    rfl

theorem C8_witness :
    (hide threeItemState).1 = { threeItemState with input_value := "" } ∧
    (hide threeItemState).2.2 = [] ∧
    (threeItemState.input_value = "" → (hide threeItemState).1 = threeItemState) :=
  C8_hide_when_hidden threeItemState rfl

/-- C9: with a backend handle present, an Input-changed action stores the
text verbatim and issues exactly one `Search` request carrying that exact
string; consequently the sequence "a", "ap", "app" issues exactly those
three `Search` requests in that order. -/
theorem C9_input_changed_search (re : String → Option String) (s : State)
    (hdl : Nat) (hx : s.tx = some hdl) (t : String) :
    (update re s (Message.InputChanged t)).1.input_value = t ∧
    (update re s (Message.InputChanged t)).2.1 = [(hdl, Request.Search t)] ∧
    (runMsgs re s [Message.InputChanged "a", Message.InputChanged "ap",
        Message.InputChanged "app"]).2 =
      [(hdl, Request.Search "a"), (hdl, Request.Search "ap"),
        (hdl, Request.Search "app")] := by
  refine ⟨?_, ?_, ?_⟩
  · simp [update, hx]
  · simp [update, hx]
  · simp [runMsgs, update, hx]

theorem C9_witness :
    (update re0 threeItemState (Message.InputChanged "a")).1.input_value = "a" ∧
    (update re0 threeItemState (Message.InputChanged "a")).2.1 =
      [(3, Request.Search "a")] ∧
    (runMsgs re0 threeItemState [Message.InputChanged "a",
        Message.InputChanged "ap", Message.InputChanged "app"]).2 =
      [(3, Request.Search "a"), (3, Request.Search "ap"),
        (3, Request.Search "app")] :=
  C9_input_changed_search re0 threeItemState 3 rfl "a"

/-- C10: the `Started(handle)` event issues a `Search("")` request on the
newly provided handle and stores that handle, replacing any previously
stored one, all within the same atomic step. -/
theorem C10_started (re : String → Option String) (s : State) (h : Nat) :
    update re s (Message.LauncherEvent (Event.Started h)) =
      ({ s with tx := some h }, [(h, Request.Search "")], []) := rfl
